import Mathlib

/-!
Verification development for the trackly fleet-management backend.

The Go source is shallowly embedded: structs become Lean structures,
`time.Time` values become `Int` nanoseconds since the Unix epoch,
Go `error` results become `Option String` (the message) or explicit
error inductives, and methods with pointer receivers that mutate the
receiver are modelled as functions returning the receiver's post-state.
-/

namespace Trackly

/-! ## Domain model (`domain` package)

Translated from the `Vehicle`, `Document` and `Picture` structs and
their methods in the domain layer source file. -/

/-- Nanoseconds in 24 hours, used to model `time.AddDate(0,0,days)` and
`24 * time.Hour`. Calendar effects (DST, leap seconds) are outside the
embedding: instants are plain nanosecond counts. -/
def nsPerDay : Int := 86400000000000

/-- The `VehicleStatus` string enum. -/
inductive VehicleStatus where
  | active | inactive | sold | scrapped | stolen | accident
  deriving DecidableEq, Repr

/-- Go `Document` struct. `time.Time` fields are `Int` nanoseconds;
`*time.Time` fields are `Option Int`. The `DocumentType` string enum is
kept as a `String` since no claim constrains its values. -/
structure Document where
  id : String
  type : String
  name : String
  description : String
  fileURL : String
  fileName : String
  fileSize : Int
  mimeType : String
  expiryDate : Option Int
  issuedDate : Option Int
  issuedBy : String
  documentNumber : String
  uploadedAt : Int
  uploadedBy : String
  isVerified : Bool
  verifiedAt : Option Int
  verifiedBy : String
  deriving DecidableEq, Repr

/-- Go `Picture` struct. -/
structure Picture where
  id : String
  type : String
  title : String
  description : String
  url : String
  thumbnailURL : String
  fileName : String
  fileSize : Int
  width : Int
  height : Int
  mimeType : String
  takenAt : Option Int
  uploadedAt : Int
  uploadedBy : String
  isMain : Bool
  sortOrder : Int
  deriving DecidableEq, Repr

/-- Go `EngineInfo` struct; `float64` displacement is modelled as `Rat`
(no claim computes with it). -/
structure EngineInfo where
  displacement : Rat
  cylinders : Int
  horsepower : Int
  torque : Int
  deriving DecidableEq, Repr

/-- Go `InsuranceContact` struct. -/
structure InsuranceContact where
  phone : String
  email : String
  address : String
  claimsPhone : String
  website : String
  deriving DecidableEq, Repr

/-- Go `InsuranceInfo` struct; monetary `float64` fields are `Rat`. -/
structure InsuranceInfo where
  policyNumber : String
  provider : String
  policyType : String
  coverageAmount : Rat
  deductible : Rat
  premiumAmount : Rat
  startDate : Int
  endDate : Int
  isActive : Bool
  contactInfo : InsuranceContact
  deriving DecidableEq, Repr

/-- Go `Vehicle` aggregate root. -/
structure Vehicle where
  id : String
  vin : String
  make : String
  model : String
  year : Int
  color : String
  licensePlate : String
  ownerID : String
  ownerName : String
  ownerEmail : String
  ownerPhone : String
  engine : EngineInfo
  transmission : String
  fuelType : String
  mileage : Int
  insurance : InsuranceInfo
  documents : List Document
  pictures : List Picture
  status : VehicleStatus
  createdAt : Int
  updatedAt : Int
  createdBy : String
  updatedBy : String
  deriving DecidableEq, Repr

/-! ### Insurance helpers

The Go methods call `time.Now()` internally; the embedding threads the
current instant `now` explicitly. -/

/-- Go `Vehicle.IsInsuranceExpired`: `time.Now().After(v.Insurance.EndDate)`. -/
def Vehicle.isInsuranceExpired (v : Vehicle) (now : Int) : Bool :=
  now > v.insurance.endDate

/-- Go `Vehicle.IsInsuranceExpiringSoon(days)`:
`v.Insurance.EndDate.Before(time.Now().AddDate(0,0,days))`. -/
def Vehicle.isInsuranceExpiringSoon (v : Vehicle) (now : Int) (days : Int) : Bool :=
  v.insurance.endDate < now + days * nsPerDay

/-- Go `Vehicle.GetInsuranceStatus`. -/
def Vehicle.getInsuranceStatus (v : Vehicle) (now : Int) : String :=
  if !v.insurance.isActive then "inactive"
  else if v.isInsuranceExpired now then "expired"
  else if v.isInsuranceExpiringSoon now 30 then "expiring_soon"
  else "active"

/-! ### In-memory mutators

Each Go mutator has a pointer receiver and may mutate `v` before or
instead of returning an error, so every mutator is embedded as a
function returning the receiver's post-state paired with the optional
error message (`none` = the Go method returned `nil`). -/

/-- One pass of the loop in Go `Vehicle.SetMainPicture`: walks the
picture list setting `IsMain := (ID == pictureID)` on every element and
accumulating whether any element matched. -/
def setMainLoop : List Picture → String → List Picture × Bool
  | [], _ => ([], false)
  | p :: rest, pictureID =>
    let (rest', found) := setMainLoop rest pictureID
    if p.id == pictureID then ({ p with isMain := true } :: rest', true)
    else ({ p with isMain := false } :: rest', found)

/-- Go `Vehicle.SetMainPicture`: rewrites all `IsMain` flags first, and
only afterwards checks whether any picture matched; a failing call has
therefore already cleared every flag. -/
def Vehicle.setMainPicture (v : Vehicle) (pictureID : String) :
    Vehicle × Option String :=
  let r := setMainLoop v.pictures pictureID
  ({ v with pictures := r.1 },
   if r.2 then none
   else some ("picture with ID " ++ pictureID ++ " not found"))

/-- Go `Vehicle.AddDocument`: rejects a duplicate ID, otherwise appends. -/
def Vehicle.addDocument (v : Vehicle) (doc : Document) :
    Vehicle × Option String :=
  if v.documents.any (fun existingDoc => existingDoc.id == doc.id) then
    (v, some ("document with ID " ++ doc.id ++ " already exists"))
  else
    ({ v with documents := v.documents ++ [doc] }, none)

/-- Go `Vehicle.AddPicture`: rejects a duplicate ID; if the vehicle has
no pictures yet the new picture is forced to be main; appends. -/
def Vehicle.addPicture (v : Vehicle) (pic : Picture) :
    Vehicle × Option String :=
  if v.pictures.any (fun existingPic => existingPic.id == pic.id) then
    (v, some ("picture with ID " ++ pic.id ++ " already exists"))
  else
    let pic' := if v.pictures.length == 0 then { pic with isMain := true } else pic
    ({ v with pictures := v.pictures ++ [pic'] }, none)

/-- The loop of Go `Vehicle.RemoveDocument`: removes the first document
with the given ID, `none` when no document matches. -/
def removeDocLoop : List Document → String → Option (List Document)
  | [], _ => none
  | d :: rest, documentID =>
    if d.id == documentID then some rest
    else (removeDocLoop rest documentID).map (fun l => d :: l)

/-- Go `Vehicle.RemoveDocument`. -/
def Vehicle.removeDocument (v : Vehicle) (documentID : String) :
    Vehicle × Option String :=
  match removeDocLoop v.documents documentID with
  | some docs => ({ v with documents := docs }, none)
  | none => (v, some ("document with ID " ++ documentID ++ " not found"))

/-- The loop of Go `Vehicle.RemovePicture`: removes the first picture
with the given ID and reports whether the removed picture was main. -/
def removePicLoop : List Picture → String → Option (Bool × List Picture)
  | [], _ => none
  | p :: rest, pictureID =>
    if p.id == pictureID then some (p.isMain, rest)
    else (removePicLoop rest pictureID).map (fun wl => (wl.1, p :: wl.2))

/-- Promotion step in Go `Vehicle.RemovePicture`: after removing the
main picture the first remaining picture (of the whole list) is made
main. -/
def promoteHead : List Picture → List Picture
  | [] => []
  | q :: qs => { q with isMain := true } :: qs

/-- Go `Vehicle.RemovePicture`. -/
def Vehicle.removePicture (v : Vehicle) (pictureID : String) :
    Vehicle × Option String :=
  match removePicLoop v.pictures pictureID with
  | some (wasMain, rest) =>
    ({ v with pictures := if wasMain then promoteHead rest else rest }, none)
  | none => (v, some ("picture with ID " ++ pictureID ++ " not found"))

/-- Number of pictures flagged as main; `≤ 1` is the spec's
at-most-one-main-picture invariant. -/
def mainCount (l : List Picture) : Nat :=
  (l.filter (fun p => p.isMain)).length

/-! ### Concrete sample values used by witnesses and counterexamples -/

/-- A picture with every field zeroed, for building concrete samples. -/
def blankPicture : Picture :=
  { id := "", type := "", title := "", description := "", url := ""
    thumbnailURL := "", fileName := "", fileSize := 0, width := 0, height := 0
    mimeType := "", takenAt := none, uploadedAt := 0, uploadedBy := ""
    isMain := false, sortOrder := 0 }

/-- A document with every field zeroed. -/
def blankDocument : Document :=
  { id := "", type := "", name := "", description := "", fileURL := ""
    fileName := "", fileSize := 0, mimeType := "", expiryDate := none
    issuedDate := none, issuedBy := "", documentNumber := "", uploadedAt := 0
    uploadedBy := "", isVerified := false, verifiedAt := none, verifiedBy := "" }

/-- A picture with just an ID and a main flag. -/
def pic (i : String) (m : Bool) : Picture :=
  { blankPicture with id := i, isMain := m }

/-- Zeroed insurance block. -/
def blankInsurance : InsuranceInfo :=
  { policyNumber := "", provider := "", policyType := "", coverageAmount := 0
    deductible := 0, premiumAmount := 0, startDate := 0, endDate := 0
    isActive := false
    contactInfo := { phone := "", email := "", address := "", claimsPhone := ""
                     website := "" } }

/-- A vehicle with the given picture list and every other field zeroed. -/
def mkVehicle (pics : List Picture) : Vehicle :=
  { id := "VEH_1", vin := "", make := "", model := "", year := 0, color := ""
    licensePlate := "", ownerID := "", ownerName := "", ownerEmail := ""
    ownerPhone := ""
    engine := { displacement := 0, cylinders := 0, horsepower := 0, torque := 0 }
    transmission := "", fuelType := "", mileage := 0
    insurance := blankInsurance
    documents := [], pictures := pics, status := VehicleStatus.active
    createdAt := 0, updatedAt := 0, createdBy := "", updatedBy := "" }

/-- A vehicle whose insurance has the given activity flag and end date. -/
def mkInsuredVehicle (active : Bool) (endDate : Int) : Vehicle :=
  { mkVehicle [] with
    insurance := { blankInsurance with isActive := active, endDate := endDate } }

/-! ### Lemmas about the mutator loops -/

/-- The flag-rewriting pass of `SetMainPicture` maps every picture's
`isMain` to whether its ID matches. -/
theorem setMainLoop_fst (l : List Picture) (pid : String) :
    (setMainLoop l pid).1 = l.map (fun p => { p with isMain := p.id == pid }) := by
  induction l with
  | nil => rfl
  | cons p rest ih =>
    simp only [setMainLoop, List.map_cons]
    by_cases h : p.id == pid <;> simp [h, ih]

/-- The `found` flag of `SetMainPicture` is exactly "some picture's ID
matches". -/
theorem setMainLoop_snd (l : List Picture) (pid : String) :
    (setMainLoop l pid).2 = l.any (fun p => p.id == pid) := by
  induction l with
  | nil => rfl
  | cons p rest ih =>
    simp only [setMainLoop, List.any_cons]
    by_cases h : p.id == pid <;> simp [h, ih]

theorem mainCount_nil : mainCount [] = 0 := rfl

theorem mainCount_cons (p : Picture) (l : List Picture) :
    mainCount (p :: l) = (if p.isMain then 1 else 0) + mainCount l := by
  by_cases h : p.isMain <;> simp [mainCount, List.filter_cons, h, Nat.add_comm]

theorem mainCount_append (l₁ l₂ : List Picture) :
    mainCount (l₁ ++ l₂) = mainCount l₁ + mainCount l₂ := by
  simp [mainCount, List.filter_append]

/-- After the flag-rewriting pass, the mains are exactly the pictures
whose ID matches. -/
theorem mainCount_setMainLoop (l : List Picture) (pid : String) :
    mainCount (setMainLoop l pid).1 =
      (l.filter (fun p => p.id == pid)).length := by
  induction l with
  | nil => rfl
  | cons p rest ih =>
    simp only [setMainLoop]
    by_cases h : p.id == pid <;>
      simp [h, mainCount_cons, ih, List.filter_cons, Nat.add_comm]

/-- With pairwise-distinct picture IDs, at most one picture can match a
given ID. -/
theorem length_filter_id_le_one (l : List Picture) (pid : String)
    (h : (l.map Picture.id).Nodup) :
    (l.filter (fun p => p.id == pid)).length ≤ 1 := by
  induction l with
  | nil => simp
  | cons p rest ih =>
    simp only [List.map_cons, List.nodup_cons] at h
    by_cases hp : p.id == pid
    · have hrest : rest.filter (fun q => q.id == pid) = [] := by
        refine List.filter_eq_nil_iff.mpr (fun q hq => ?_)
        have hmem : q.id ∈ rest.map Picture.id := List.mem_map_of_mem _ hq
        simp only [beq_iff_eq] at hp ⊢
        intro hqe
        rw [hqe, ← hp] at hmem
        exact h.1 hmem
      simp [List.filter_cons, hp, hrest]
    · simpa [List.filter_cons, hp] using ih h.2

/-- Removing a picture splits the main count of the original list into
the removed picture's contribution plus the remainder's. -/
theorem removePicLoop_mainCount (l : List Picture) (pid : String)
    (w : Bool) (rest : List Picture)
    (h : removePicLoop l pid = some (w, rest)) :
    mainCount l = (if w then 1 else 0) + mainCount rest := by
  induction l generalizing rest with
  | nil => simp [removePicLoop] at h
  | cons p tail ih =>
    simp only [removePicLoop] at h
    by_cases hp : p.id == pid
    · simp only [hp, if_pos] at h
      cases h
      · simp [mainCount_cons]
    · simp only [hp] at h
      cases hrec : removePicLoop tail pid with
      | none => simp [hrec] at h
      | some wl =>
        simp only [hrec, Option.map_some] at h
        cases h
        have := ih wl.2 hrec
        simp [mainCount_cons, this, Nat.add_assoc, Nat.add_left_comm]

/-- Promoting the head of a main-free list yields at most one main. -/
theorem mainCount_promoteHead_of_zero (l : List Picture)
    (h : mainCount l = 0) : mainCount (promoteHead l) ≤ 1 := by
  cases l with
  | nil => simp [promoteHead, mainCount_nil]
  | cons q qs =>
    have : mainCount qs = 0 := by
      have := mainCount_cons q qs
      omega
    simp [promoteHead, mainCount_cons, this]

/-! ## Claim C1: SetMainPicture behaviour -/

/-- C1 counterexample: on a vehicle whose single picture `p1` is main,
`SetMainPicture "p2"` fails with not-found, yet the failing call has
changed the aggregate — `p1` is no longer main — contradicting the
claim that a failing call leaves every `isMain` flag unchanged. -/
theorem C1_failing_call_mutates :
    ((mkVehicle [pic "p1" true]).setMainPicture "p2").2.isSome = true ∧
    ((mkVehicle [pic "p1" true]).setMainPicture "p2").1 ≠
      mkVehicle [pic "p1" true] := by
  decide

/-- C1 (amended): `SetMainPicture(id)` fails with not-found exactly when
no picture's ID matches; in both success and failure it rewrites every
picture's `isMain` to "this picture's ID equals `id`" (so on success
exactly the matching picture is main and all others are not, while a
failing call clears every main flag instead of preserving the previous
values); no other field of the vehicle changes. -/
theorem C1_setMainPicture_spec (v : Vehicle) (pid : String) :
    (v.setMainPicture pid).1 =
      { v with pictures := v.pictures.map (fun p => { p with isMain := p.id == pid }) } ∧
    ((v.setMainPicture pid).2 = none ↔
      v.pictures.any (fun p => p.id == pid) = true) := by
  constructor
  · simp [Vehicle.setMainPicture, setMainLoop_fst]
  · simp only [Vehicle.setMainPicture, setMainLoop_snd]
    by_cases h : v.pictures.any (fun p => p.id == pid) <;> simp [h]

/-! ## Claim C2: preservation of the at-most-one-main invariant -/

/-- C2 counterexample: a vehicle with one main picture satisfies the
invariant, yet `AddPicture` of a second picture whose `isMain` is true
succeeds and leaves the vehicle with two main pictures. -/
theorem C2_addPicture_breaks_invariant :
    mainCount (mkVehicle [pic "p1" true]).pictures ≤ 1 ∧
    ((mkVehicle [pic "p1" true]).addPicture (pic "p2" true)).2 = none ∧
    ¬ mainCount (((mkVehicle [pic "p1" true]).addPicture (pic "p2" true)).1).pictures ≤ 1 := by
  decide

/-- C2 (amended): on a vehicle with pairwise-distinct picture IDs and at
most one main picture, `AddDocument`, `RemoveDocument`, `RemovePicture`
and `SetMainPicture` always preserve the at-most-one-main invariant,
and `AddPicture` preserves it when the added picture's `isMain` is
false or the vehicle has no pictures; it does not preserve it when a
main-flagged picture is added to a vehicle that already has a main. -/
theorem C2_mutators_preserve_invariant (v : Vehicle)
    (hids : (v.pictures.map Picture.id).Nodup)
    (hmain : mainCount v.pictures ≤ 1) :
    (∀ doc, mainCount ((v.addDocument doc).1).pictures ≤ 1) ∧
    (∀ did, mainCount ((v.removeDocument did).1).pictures ≤ 1) ∧
    (∀ rid, mainCount ((v.removePicture rid).1).pictures ≤ 1) ∧
    (∀ pid, mainCount ((v.setMainPicture pid).1).pictures ≤ 1) ∧
    (∀ p, p.isMain = false ∨ v.pictures = [] →
      mainCount ((v.addPicture p).1).pictures ≤ 1) := by
  refine ⟨?_, ?_, ?_, ?_, ?_⟩
  · intro doc
    by_cases h : v.documents.any (fun d => d.id == doc.id) <;>
      simp [Vehicle.addDocument, h, hmain]
  · intro did
    cases h : removeDocLoop v.documents did <;>
      simp [Vehicle.removeDocument, h, hmain]
  · intro rid
    cases h : removePicLoop v.pictures rid with
    | none => simpa [Vehicle.removePicture, h] using hmain
    | some wl =>
      obtain ⟨w, rest⟩ := wl
      have hsplit := removePicLoop_mainCount v.pictures rid w rest h
      cases w with
      | false =>
        simp only [Vehicle.removePicture, h, if_neg Bool.false_ne_true]
        simp only [Bool.false_eq_true, if_neg, if_false] at hsplit ⊢
        omega
      | true =>
        have hzero : mainCount rest = 0 := by
          simp only [if_pos] at hsplit
          omega
        simpa [Vehicle.removePicture, h] using
          mainCount_promoteHead_of_zero rest hzero
  · intro pid
    simp only [Vehicle.setMainPicture]
    calc mainCount (setMainLoop v.pictures pid).1
        = (v.pictures.filter (fun p => p.id == pid)).length :=
          mainCount_setMainLoop v.pictures pid
      _ ≤ 1 := length_filter_id_le_one v.pictures pid hids
  · intro p hp
    by_cases hdup : v.pictures.any (fun q => q.id == p.id)
    · simpa [Vehicle.addPicture, hdup] using hmain
    · rcases hp with hfalse | hnil
      · by_cases hlen : v.pictures.length == 0
        · have : v.pictures = [] := by simpa using hlen
          simp [Vehicle.addPicture, hdup, hlen, this, mainCount_append,
            mainCount_cons, mainCount_nil]
        · simp [Vehicle.addPicture, hdup, hlen, mainCount_append,
            mainCount_cons, mainCount_nil, hfalse]
          omega
      · simp [Vehicle.addPicture, hnil, mainCount_append, mainCount_cons,
          mainCount_nil]

/-- C2 witness: the amended theorem applied to a concrete vehicle with
one main picture. -/
theorem C2_mutators_preserve_invariant_witness :
    ((mkVehicle [pic "p1" true]).pictures.map Picture.id).Nodup ∧
    mainCount (mkVehicle [pic "p1" true]).pictures ≤ 1 ∧
    mainCount (((mkVehicle [pic "p1" true]).addPicture (pic "p2" false)).1).pictures ≤ 1 :=
  ⟨by decide, by decide,
    (C2_mutators_preserve_invariant (mkVehicle [pic "p1" true])
      (by decide) (by decide)).2.2.2.2 (pic "p2" false) (Or.inl rfl)⟩

/-! ## Claim C6: first picture is forced main, second leaves it alone -/

/-- C6: adding a picture to a vehicle with zero pictures always stores
it with `isMain = true` regardless of the requested flag, and adding a
second picture to a vehicle with exactly one picture never changes the
first picture (in particular its `isMain` flag), whether the add
succeeds or is rejected as a duplicate. -/
theorem C6_addPicture_main_rules :
    (∀ (v : Vehicle) (p : Picture), v.pictures = [] →
      v.addPicture p = ({ v with pictures := [{ p with isMain := true }] }, none)) ∧
    (∀ (v : Vehicle) (p1 p : Picture), v.pictures = [p1] →
      ((v.addPicture p).1).pictures.head? = some p1) := by
  constructor
  · intro v p hv
    simp [Vehicle.addPicture, hv]
  · intro v p1 p hv
    by_cases hdup : p1.id == p.id
    · simp [Vehicle.addPicture, hv, hdup]
    · simp [Vehicle.addPicture, hv, hdup]

/-- C6 witness: both parts applied to concrete vehicles; note the added
picture requested `isMain = false` yet is stored with `isMain = true`. -/
theorem C6_addPicture_main_rules_witness :
    (mkVehicle []).addPicture (pic "p1" false) =
      ({ mkVehicle [] with pictures := [{ pic "p1" false with isMain := true }] }, none) ∧
    (((mkVehicle [pic "p1" true]).addPicture (pic "p2" false)).1).pictures.head? =
      some (pic "p1" true) :=
  ⟨C6_addPicture_main_rules.1 (mkVehicle []) (pic "p1" false) rfl,
   C6_addPicture_main_rules.2 (mkVehicle [pic "p1" true]) (pic "p1" true)
     (pic "p2" false) rfl⟩

/-! ## Claim C7: insurance status classification -/

/-- C7: `GetInsuranceStatus` at instant `now` returns `"inactive"`
whenever the insurance is not active; otherwise `"expired"` when the
end date is before `now`, `"expiring_soon"` when the end date is not
past but within 30 days of `now`, and `"active"` when the end date is
at least 30 days away. -/
theorem C7_insurance_status (v : Vehicle) (now : Int) :
    (v.insurance.isActive = false → v.getInsuranceStatus now = "inactive") ∧
    (v.insurance.isActive = true →
      (v.insurance.endDate < now → v.getInsuranceStatus now = "expired") ∧
      (now ≤ v.insurance.endDate → v.insurance.endDate < now + 30 * nsPerDay →
        v.getInsuranceStatus now = "expiring_soon") ∧
      (now + 30 * nsPerDay ≤ v.insurance.endDate →
        v.getInsuranceStatus now = "active")) := by
  have hd : nsPerDay = 86400000000000 := rfl
  constructor
  · intro ha
    simp [Vehicle.getInsuranceStatus, ha]
  · intro ha
    refine ⟨?_, ?_, ?_⟩
    · intro h1
      have hexp : v.isInsuranceExpired now = true := by
        simp only [Vehicle.isInsuranceExpired, decide_eq_true_eq]
        omega
      simp [Vehicle.getInsuranceStatus, ha, hexp]
    · intro h1 h2
      have hexp : v.isInsuranceExpired now = false := by
        simp only [Vehicle.isInsuranceExpired, decide_eq_false_iff_not]
        omega
      have hsoon : v.isInsuranceExpiringSoon now 30 = true := by
        simp only [Vehicle.isInsuranceExpiringSoon, decide_eq_true_eq]
        exact h2
      simp [Vehicle.getInsuranceStatus, ha, hexp, hsoon]
    · intro h1
      have hexp : v.isInsuranceExpired now = false := by
        simp only [Vehicle.isInsuranceExpired, decide_eq_false_iff_not]
        omega
      have hsoon : v.isInsuranceExpiringSoon now 30 = false := by
        simp only [Vehicle.isInsuranceExpiringSoon, decide_eq_false_iff_not]
        omega
      simp [Vehicle.getInsuranceStatus, ha, hexp, hsoon]

/-- C7 witness: the four classifications at concrete instants — end
date one day in the past, ten days ahead, sixty days ahead, and an
inactive policy. -/
theorem C7_insurance_status_witness :
    (mkInsuredVehicle true 0).getInsuranceStatus nsPerDay = "expired" ∧
    (mkInsuredVehicle true (10 * nsPerDay)).getInsuranceStatus 0 = "expiring_soon" ∧
    (mkInsuredVehicle true (60 * nsPerDay)).getInsuranceStatus 0 = "active" ∧
    (mkInsuredVehicle false 0).getInsuranceStatus 0 = "inactive" :=
  ⟨((C7_insurance_status (mkInsuredVehicle true 0) nsPerDay).2 rfl).1 (by decide),
   ((C7_insurance_status (mkInsuredVehicle true (10 * nsPerDay)) 0).2 rfl).2.1
     (by decide) (by decide),
   ((C7_insurance_status (mkInsuredVehicle true (60 * nsPerDay)) 0).2 rfl).2.2
     (by decide),
   (C7_insurance_status (mkInsuredVehicle false 0) 0).1 rfl⟩

/-! ## Error model (`pkg/errors` package)

Translated from the `AppError` struct, its builder methods, the
predefined error templates, and the repository error classifiers. -/

/-- Go `ErrorType` string enum. -/
inductive ErrorType where
  | validation | notFound | unauthorized | forbidden | conflict
  | internal | external | timeout | rateLimit | badRequest | unavailable
  deriving DecidableEq, Repr

/-- Go `AppError` struct. `Details any` is modelled as the
string-to-string map used at every call site the claims touch, and
`Cause error` as the wrapped error's `Error()` message. -/
structure AppError where
  type : ErrorType
  message : String
  code : String
  httpStatus : Nat
  details : Option (List (String × String)) := none
  cause : Option String := none
  deriving DecidableEq, Repr

/-- Go `New`. -/
def New (errorType : ErrorType) (code message : String) (httpStatus : Nat) :
    AppError :=
  { type := errorType, code := code, message := message
    httpStatus := httpStatus }

/-- Go `AppError.Error()`: message, with the cause appended when present. -/
def AppError.errorString (e : AppError) : String :=
  match e.cause with
  | some c => e.message ++ ": " ++ c
  | none => e.message

/-- Go `WithDetails` assigns through the pointer receiver
(`e.Details = details; return e`), so the value computed here is at
once the returned error and the post-call state of the receiver — for
a predefined template, the new state of the shared template itself. -/
def AppError.withDetails (e : AppError) (details : List (String × String)) :
    AppError :=
  { e with details := some details }

/-- Go `WithCause` likewise assigns through the pointer receiver
(`e.Cause = cause; return e`); the result is both the returned error
and the receiver's post-call state. -/
def AppError.withCause (e : AppError) (cause : String) : AppError :=
  { e with cause := some cause }

/-- Predefined template `ErrInvalidInput`. -/
def ErrInvalidInput : AppError :=
  New ErrorType.validation "INVALID_INPUT" "Invalid input provided" 400

/-- Predefined template `ErrInvalidFormat`. -/
def ErrInvalidFormat : AppError :=
  New ErrorType.validation "INVALID_FORMAT" "Invalid format provided" 400

/-- Predefined template `ErrInvalidID`. -/
def ErrInvalidID : AppError :=
  New ErrorType.validation "INVALID_ID" "Invalid ID format" 400

/-- Predefined template `ErrResourceNotFound`. -/
def ErrResourceNotFound : AppError :=
  New ErrorType.notFound "RESOURCE_NOT_FOUND" "Requested resource not found" 404

/-- Predefined template `ErrResourceExists`. -/
def ErrResourceExists : AppError :=
  New ErrorType.conflict "RESOURCE_EXISTS" "Resource already exists" 409

/-- Predefined template `ErrDatabaseConnection` (note: its `Type` is
`internal`, not a dedicated database-connection category). -/
def ErrDatabaseConnection : AppError :=
  New ErrorType.internal "DATABASE_CONNECTION_ERROR" "Database connection failed" 500

/-- Predefined template `ErrDatabaseQuery`. -/
def ErrDatabaseQuery : AppError :=
  New ErrorType.internal "DATABASE_QUERY_ERROR" "Database query failed" 500

/-- Predefined template `ErrRequestTimeout`. -/
def ErrRequestTimeout : AppError :=
  New ErrorType.timeout "REQUEST_TIMEOUT" "Request timeout" 408

/-- Go `NewNotFoundError`. -/
def NewNotFoundError (resource rid : String) : AppError :=
  ErrResourceNotFound.withDetails [("resource", resource), ("id", rid)]

/-- Go `NewConflictError`. -/
def NewConflictError (resource message : String) : AppError :=
  ErrResourceExists.withDetails [("resource", resource), ("message", message)]

/-- Go `NewDatabaseError`. -/
def NewDatabaseError (operation : String) (err : String) : AppError :=
  (ErrDatabaseQuery.withCause err).withDetails [("operation", operation)]

/-! ## Claim C3: builder calls mutate the shared templates -/

/-- C3: because `WithDetails`/`WithCause` write through the pointer
receiver and return it, `AppError.withDetails e d` is the receiver's
post-call state; for the shared templates that state differs from the
template's prior value, i.e. the template IS mutated in place,
contradicting the claim that the receiver is left unchanged. -/
theorem C3_builders_mutate_template :
    ErrInvalidInput.withDetails [("field", "x")] ≠ ErrInvalidInput ∧
    ErrResourceExists.withCause "duplicate key" ≠ ErrResourceExists ∧
    (ErrInvalidInput.withDetails [("field", "x")]).details ≠ ErrInvalidInput.details := by
  decide

/-! ## Claim C4: the phrase-based storage error classifier -/

/-- Whether the character list `pat` is a prefix of `s`. -/
def hasPrefixChars : List Char → List Char → Bool
  | _, [] => true
  | [], _ :: _ => false
  | c :: cs, p :: ps => c == p && hasPrefixChars cs ps

/-- Whether the character list `pat` occurs contiguously in `s`. -/
def hasSubstrChars : List Char → List Char → Bool
  | [], pat => pat.isEmpty
  | c :: rest, pat => hasPrefixChars (c :: rest) pat || hasSubstrChars rest pat

/-- Go `strings.Contains`. -/
def goContains (s sub : String) : Bool :=
  hasSubstrChars s.data sub.data

/-- Go `strings.ToLower`; all classified messages are ASCII, where
Go's Unicode lowering and `Char.toLower` agree. -/
def goToLower (s : String) : String :=
  String.mk (s.data.map Char.toLower)

/-- Go `ProductRepository.convertDBError`: classifies a raw storage
error by matching phrases in the lowercased error message, first match
wins. -/
def convertDBError (operation : String) (err : String) : AppError :=
  let errMsg := goToLower err
  if goContains errMsg "document not found" || goContains errMsg "key not found" then
    ErrResourceNotFound.withCause err
  else if goContains errMsg "duplicate" || goContains errMsg "already exists" ||
      goContains errMsg "unique constraint" then
    ErrResourceExists.withCause err
  else if goContains errMsg "timeout" || goContains errMsg "deadline exceeded" then
    ErrRequestTimeout.withCause err
  else if goContains errMsg "connection" || goContains errMsg "network" then
    ErrDatabaseConnection.withCause err
  else
    NewDatabaseError operation err

/-- C4 counterexample: an "unauthorized" storage error does not map to
an `unauthorized` error — the classifier has no auth branch — and a
"cluster"-phrase error does not map to the database-connection error;
both fall through to the generic database error (type `internal`). -/
theorem C4_no_auth_or_cluster_branch :
    (convertDBError "get_product" "unauthorized access").type = ErrorType.internal ∧
    (convertDBError "get_product" "unauthorized access").type ≠ ErrorType.unauthorized ∧
    (convertDBError "get_product" "cluster is unreachable").code = "DATABASE_QUERY_ERROR" ∧
    (convertDBError "get_product" "cluster is unreachable").code ≠ "DATABASE_CONNECTION_ERROR" := by
  decide

/-- C4 (amended): first match in order on the lowercased message —
document/key not found phrases map to the not-found error,
duplicate/already-exists/unique-constraint phrases to the conflict
error, timeout/deadline phrases to the request-timeout error,
connection/network phrases (there is no "cluster" phrase) to the
database-connection error, and everything else — including
auth/unauthorized errors, for which no branch exists — to the generic
database error wrapping the cause and tagging the operation name in
its details. -/
theorem C4_classifier_first_match (operation err : String) :
    ((goContains (goToLower err) "document not found" ||
        goContains (goToLower err) "key not found") = true →
      convertDBError operation err = ErrResourceNotFound.withCause err) ∧
    ((goContains (goToLower err) "document not found" ||
        goContains (goToLower err) "key not found") = false →
      (goContains (goToLower err) "duplicate" || goContains (goToLower err) "already exists" ||
        goContains (goToLower err) "unique constraint") = true →
      convertDBError operation err = ErrResourceExists.withCause err) ∧
    ((goContains (goToLower err) "document not found" ||
        goContains (goToLower err) "key not found") = false →
      (goContains (goToLower err) "duplicate" || goContains (goToLower err) "already exists" ||
        goContains (goToLower err) "unique constraint") = false →
      (goContains (goToLower err) "timeout" ||
        goContains (goToLower err) "deadline exceeded") = true →
      convertDBError operation err = ErrRequestTimeout.withCause err) ∧
    ((goContains (goToLower err) "document not found" ||
        goContains (goToLower err) "key not found") = false →
      (goContains (goToLower err) "duplicate" || goContains (goToLower err) "already exists" ||
        goContains (goToLower err) "unique constraint") = false →
      (goContains (goToLower err) "timeout" ||
        goContains (goToLower err) "deadline exceeded") = false →
      (goContains (goToLower err) "connection" ||
        goContains (goToLower err) "network") = true →
      convertDBError operation err = ErrDatabaseConnection.withCause err) ∧
    ((goContains (goToLower err) "document not found" ||
        goContains (goToLower err) "key not found") = false →
      (goContains (goToLower err) "duplicate" || goContains (goToLower err) "already exists" ||
        goContains (goToLower err) "unique constraint") = false →
      (goContains (goToLower err) "timeout" ||
        goContains (goToLower err) "deadline exceeded") = false →
      (goContains (goToLower err) "connection" ||
        goContains (goToLower err) "network") = false →
      convertDBError operation err = NewDatabaseError operation err ∧
      (convertDBError operation err).type = ErrorType.internal ∧
      (convertDBError operation err).cause = some err ∧
      (convertDBError operation err).details = some [("operation", operation)]) := by
  refine ⟨?_, ?_, ?_, ?_, ?_⟩
  · intro h1
    simp [convertDBError, h1]
  · intro h1 h2
    simp [convertDBError, h1, h2]
  · intro h1 h2 h3
    simp [convertDBError, h1, h2, h3]
  · intro h1 h2 h3 h4
    simp [convertDBError, h1, h2, h3, h4]
  · intro h1 h2 h3 h4
    simp [convertDBError, h1, h2, h3, h4, NewDatabaseError,
      AppError.withCause, AppError.withDetails, ErrDatabaseQuery, New]

/-- C4 witness: one input per branch of the amended classifier. -/
theorem C4_classifier_first_match_witness :
    convertDBError "op" "key not found" = ErrResourceNotFound.withCause "key not found" ∧
    convertDBError "op" "Duplicate entry" = ErrResourceExists.withCause "Duplicate entry" ∧
    convertDBError "op" "operation timeout" = ErrRequestTimeout.withCause "operation timeout" ∧
    convertDBError "op" "network is down" = ErrDatabaseConnection.withCause "network is down" ∧
    convertDBError "op" "mystery failure" = NewDatabaseError "op" "mystery failure" :=
  ⟨(C4_classifier_first_match "op" "key not found").1 (by decide),
   (C4_classifier_first_match "op" "Duplicate entry").2.1 (by decide) (by decide),
   (C4_classifier_first_match "op" "operation timeout").2.2.1 (by decide) (by decide)
     (by decide),
   (C4_classifier_first_match "op" "network is down").2.2.2.1 (by decide) (by decide)
     (by decide) (by decide),
   ((C4_classifier_first_match "op" "mystery failure").2.2.2.2 (by decide) (by decide)
     (by decide) (by decide)).1⟩

/-! ## Couchbase vehicle repository (`infra/couchbase`)

The document store is modelled as an association list from keys to
stored documents; `Insert` fails when the key exists, `Replace` fails
when it does not, and the create transaction inserts the VIN lookup
document and the vehicle document as one atomic unit. -/

/-- The gocb sentinel errors the repository distinguishes with
`errors.Is` / `errors.As`. -/
inductive DbErr where
  | documentNotFound
  | documentExists
  | timeoutErr
  | other (msg : String)
  deriving DecidableEq, Repr

/-- The `Error()` message of a storage error, used when it is wrapped
as a cause. -/
def DbErr.message : DbErr → String
  | DbErr.documentNotFound => "document not found"
  | DbErr.documentExists => "document exists"
  | DbErr.timeoutErr => "operation has timed out"
  | DbErr.other m => m

/-- A document in the vehicles bucket: either a `vin::<VIN>` lookup
record or a vehicle record. -/
inductive StoredVal where
  | vinRef (vehicleID : String)
  | veh (v : Vehicle)
  deriving DecidableEq, Repr

/-- The vehicles bucket, keyed by document ID. -/
abbrev Store := List (String × StoredVal)

/-- Key lookup (first match). -/
def storeLookup : Store → String → Option StoredVal
  | [], _ => none
  | kv :: rest, k => if kv.1 == k then some kv.2 else storeLookup rest k

/-- Whether a key is present. -/
def storeHas (s : Store) (k : String) : Bool :=
  (storeLookup s k).isSome

/-- Couchbase `Replace`: overwrite the value stored at a key. -/
def storeReplace (s : Store) (k : String) (val : StoredVal) : Store :=
  s.map (fun kv => if kv.1 == k then (k, val) else kv)

/-- The Go zero value `domain.Vehicle{}` (JSON decoding into a struct
leaves absent fields at their zero values). -/
def blankVehicle : Vehicle :=
  { mkVehicle [] with id := "" }

/-- Go `VehicleRepository.convertDBError`: sentinel-based mapping of
gocb errors, with the generic database error as the default. -/
def vehicleConvertDBError (operation : String) (err : DbErr) : AppError :=
  match err with
  | DbErr.documentNotFound => ErrResourceNotFound.withCause err.message
  | DbErr.documentExists => ErrResourceExists.withCause err.message
  | DbErr.timeoutErr => ErrRequestTimeout.withCause err.message
  | DbErr.other _ => NewDatabaseError operation err.message

/-- Go `VehicleRepository.GetVehicle`. Reading a `vin::` lookup record
as a vehicle succeeds in Go (JSON decoding ignores unknown fields) and
yields the zero vehicle. -/
def repoGetVehicle (s : Store) (id : String) : Except AppError Vehicle :=
  if id == "" then Except.error ErrInvalidID
  else
    match storeLookup s id with
    | none => Except.error (vehicleConvertDBError "get_vehicle" DbErr.documentNotFound)
    | some (StoredVal.veh v) => Except.ok v
    | some (StoredVal.vinRef _) => Except.ok blankVehicle

/-- Go `VehicleRepository.GetVehicleByVIN`: reads the `vin::<VIN>`
lookup record with the VIN exactly as given (no normalization), then
loads the referenced vehicle. Decoding a vehicle document into the
`{vehicle_id}` reference struct yields the zero reference, so that
degenerate case chains into `GetVehicle("")`. -/
def repoGetVehicleByVIN (s : Store) (vin : String) : Except AppError Vehicle :=
  match storeLookup s ("vin::" ++ vin) with
  | none => Except.error (NewNotFoundError "vehicle" vin)
  | some (StoredVal.vinRef vid) => repoGetVehicle s vid
  | some (StoredVal.veh _) => repoGetVehicle s ""

/-- Go `VehicleRepository.CreateVehicle`: stamps created/updated, then
atomically inserts the `vin::` lookup record and the vehicle record;
either insert hitting an existing key fails the whole transaction with
the document-exists error, reported as the VIN conflict. The store is
returned unchanged on failure (no overwrite). -/
def repoCreateVehicle (s : Store) (vehicle : Vehicle) (now : Int) :
    Store × Option AppError :=
  let v := { vehicle with createdAt := now, updatedAt := now }
  let vinKey := "vin::" ++ v.vin
  if storeHas s vinKey || storeHas s v.id then
    (s, some (NewConflictError "vehicle"
      ("Vehicle with VIN " ++ v.vin ++ " already exists")))
  else
    ((vinKey, StoredVal.vinRef v.id) :: (v.id, StoredVal.veh v) :: s, none)

/-- Go `VehicleRepository.UpdateVehicle`: stamps `UpdatedAt` and
replaces the vehicle document at its own ID. -/
def repoUpdateVehicle (s : Store) (vehicle : Vehicle) (now : Int) :
    Store × Option AppError :=
  let v := { vehicle with updatedAt := now }
  if storeHas s v.id then (storeReplace s v.id (StoredVal.veh v), none)
  else (s, some (vehicleConvertDBError "update_vehicle" DbErr.documentNotFound))

/-- Go `VehicleRepository.DeleteVehicle`: fetches the vehicle, flips
its status to inactive, stamps the update time, and writes it back via
`UpdateVehicle` (which stamps again with its own clock reading `n2`). -/
def repoDeleteVehicle (s : Store) (id : String) (n1 n2 : Int) :
    Store × Option AppError :=
  match repoGetVehicle s id with
  | Except.error e => (s, some e)
  | Except.ok vehicle =>
    repoUpdateVehicle s
      { vehicle with status := VehicleStatus.inactive, updatedAt := n1 } n2

/-- The string stored for a vehicle status in the document (the value
the N1QL comparison `v.status != 'inactive'` sees). -/
def statusString : VehicleStatus → String
  | VehicleStatus.active => "active"
  | VehicleStatus.inactive => "inactive"
  | VehicleStatus.sold => "sold"
  | VehicleStatus.scrapped => "scrapped"
  | VehicleStatus.stolen => "stolen"
  | VehicleStatus.accident => "accident"

/-- The WHERE clause of the owner query: vehicle documents whose
`owner_id` matches and whose `status` is not `'inactive'` (`vin::`
lookup records have neither field and never satisfy the clause). -/
def ownerQueryFilter (s : Store) (ownerID : String) : List Vehicle :=
  s.filterMap (fun kv =>
    match kv.2 with
    | StoredVal.veh v =>
      if v.ownerID == ownerID && statusString v.status != "inactive" then some v
      else none
    | StoredVal.vinRef _ => none)

/-- Insert a vehicle into a list sorted by `created_at` descending. -/
def insertByCreatedDesc (v : Vehicle) : List Vehicle → List Vehicle
  | [] => [v]
  | w :: ws =>
    if v.createdAt ≥ w.createdAt then v :: w :: ws
    else w :: insertByCreatedDesc v ws

/-- The `ORDER BY v.created_at DESC` of the owner query. -/
def sortByCreatedDesc : List Vehicle → List Vehicle
  | [] => []
  | v :: vs => insertByCreatedDesc v (sortByCreatedDesc vs)

/-- Go `VehicleRepository.GetVehiclesByOwner`. -/
def repoGetVehiclesByOwner (s : Store) (ownerID : String) :
    Except AppError (List Vehicle) :=
  if ownerID == "" then Except.error ErrInvalidID
  else Except.ok (sortByCreatedDesc (ownerQueryFilter s ownerID))

/-! ### Store lemmas -/

theorem storeLookup_replace_self (s : Store) (k : String) (val : StoredVal)
    (h : (storeLookup s k).isSome) :
    storeLookup (storeReplace s k val) k = some val := by
  induction s with
  | nil => simp [storeLookup] at h
  | cons kv rest ih =>
    by_cases hk : kv.1 == k
    · simp [storeReplace, storeLookup, hk]
    · simp only [storeLookup, hk, if_neg, Bool.false_eq_true, if_false] at h
      simpa [storeReplace, storeLookup, hk] using ih h

theorem mem_insertByCreatedDesc (v w : Vehicle) (l : List Vehicle) :
    w ∈ insertByCreatedDesc v l ↔ w = v ∨ w ∈ l := by
  induction l with
  | nil => simp [insertByCreatedDesc]
  | cons x xs ih =>
    by_cases h : v.createdAt ≥ x.createdAt
    · simp [insertByCreatedDesc, h]
    · simp [insertByCreatedDesc, h, ih]
      tauto

theorem mem_sortByCreatedDesc (w : Vehicle) (l : List Vehicle) :
    w ∈ sortByCreatedDesc l ↔ w ∈ l := by
  induction l with
  | nil => simp [sortByCreatedDesc]
  | cons x xs ih =>
    simp [sortByCreatedDesc, mem_insertByCreatedDesc, ih]

theorem status_ne_inactive_of_statusString (st : VehicleStatus)
    (h : statusString st ≠ "inactive") : st ≠ VehicleStatus.inactive := by
  cases st <;> simp_all [statusString]

/-! ## Claim C10: soft delete and the owner query's status filter -/

/-- C10: deleting an existing vehicle leaves its record in the store
with status `inactive` and a refreshed `UpdatedAt` (`n2`, the update
call's clock reading) and every other field unchanged, rather than
removing the record; and every vehicle returned by the owner query has
a status other than `inactive`. -/
theorem C10_soft_delete_and_owner_filter :
    (∀ (s : Store) (id : String) (v : Vehicle) (n1 n2 : Int),
      id ≠ "" → storeLookup s id = some (StoredVal.veh v) → v.id = id →
      (repoDeleteVehicle s id n1 n2).2 = none ∧
      storeLookup (repoDeleteVehicle s id n1 n2).1 id =
        some (StoredVal.veh
          { v with status := VehicleStatus.inactive, updatedAt := n2 })) ∧
    (∀ (s : Store) (ownerID : String) (l : List Vehicle) (w : Vehicle),
      repoGetVehiclesByOwner s ownerID = Except.ok l → w ∈ l →
      w.status ≠ VehicleStatus.inactive) := by
  constructor
  · intro s id v n1 n2 hid h hvid
    have hbeq : (id == "") = false := by
      simpa using hid
    have hsome : (storeLookup s id).isSome := by rw [h]; rfl
    refine ⟨?_, ?_⟩
    · simp [repoDeleteVehicle, repoGetVehicle, hbeq, h, repoUpdateVehicle,
        hvid, storeHas, hsome]
    · simp [repoDeleteVehicle, repoGetVehicle, hbeq, h, repoUpdateVehicle,
        hvid, storeHas, hsome, storeLookup_replace_self]
  · intro s ownerID l w hok hw
    by_cases ho : ownerID == ""
    · simp [repoGetVehiclesByOwner, ho] at hok
    · simp only [repoGetVehiclesByOwner, ho, Bool.false_eq_true, if_false,
        Except.ok.injEq] at hok
      rw [← hok, mem_sortByCreatedDesc] at hw
      obtain ⟨kv, hkv, hfa⟩ := List.mem_filterMap.mp hw
      match hval : kv.2 with
      | StoredVal.vinRef _ => rw [hval] at hfa; simp at hfa
      | StoredVal.veh u =>
        rw [hval] at hfa
        by_cases hc : u.ownerID == ownerID && statusString u.status != "inactive"
        · have huw : u = w := by simpa [hc] using hfa
          subst huw
          have h2 : statusString u.status ≠ "inactive" := by
            have := hc
            simp only [Bool.and_eq_true, bne_iff_ne, ne_eq] at this
            exact this.2
          exact status_ne_inactive_of_statusString u.status h2
        · simp [hc] at hfa

/-- C10 witness: deleting a concrete stored vehicle and querying by its
owner. -/
theorem C10_soft_delete_and_owner_filter_witness :
    ("VEH_9" : String) ≠ "" ∧
    storeLookup [("VEH_9", StoredVal.veh { mkVehicle [] with id := "VEH_9" })]
      "VEH_9" = some (StoredVal.veh { mkVehicle [] with id := "VEH_9" }) ∧
    (repoDeleteVehicle
      [("VEH_9", StoredVal.veh { mkVehicle [] with id := "VEH_9" })]
      "VEH_9" 5 6).2 = none ∧
    storeLookup (repoDeleteVehicle
      [("VEH_9", StoredVal.veh { mkVehicle [] with id := "VEH_9" })]
      "VEH_9" 5 6).1 "VEH_9" =
      some (StoredVal.veh
        { mkVehicle [] with
          id := "VEH_9", status := VehicleStatus.inactive, updatedAt := 6 }) :=
  ⟨by decide, rfl,
   (C10_soft_delete_and_owner_filter.1
     [("VEH_9", StoredVal.veh { mkVehicle [] with id := "VEH_9" })]
     "VEH_9" { mkVehicle [] with id := "VEH_9" } 5 6
     (by decide) rfl rfl).1,
   (C10_soft_delete_and_owner_filter.1
     [("VEH_9", StoredVal.veh { mkVehicle [] with id := "VEH_9" })]
     "VEH_9" { mkVehicle [] with id := "VEH_9" } 5 6
     (by decide) rfl rfl).2⟩

/-! ## Claim C5: duplicate VINs through the create-vehicle pipeline -/

/-- Go `strings.ToUpper`; VINs are ASCII, where Go's Unicode upper
casing and `Char.toUpper` agree. -/
def goToUpper (s : String) : String :=
  String.mk (s.data.map Char.toUpper)

/-- The ASCII white-space characters Go's `unicode.IsSpace` accepts
(the inputs the claims exercise are ASCII). -/
def isSpaceChar (c : Char) : Bool :=
  c == ' ' || c == '\t' || c == '\n' || c == '\r'

/-- Go `strings.TrimSpace`. -/
def goTrimSpace (s : String) : String :=
  String.mk (((s.data.dropWhile isSpaceChar).reverse.dropWhile isSpaceChar).reverse)

/-- Go `CreateVehicleRequest` (JSON field shapes). -/
structure CreateVehicleRequest where
  vin : String
  make : String
  model : String
  year : Int
  color : String
  licensePlate : String
  ownerID : String
  ownerName : String
  ownerEmail : String
  ownerPhone : String
  transmission : String
  fuelType : String
  mileage : Int
  createdBy : String
  deriving DecidableEq, Repr

/-- Go `CreateVehicleResponse`. -/
structure CreateVehicleResponse where
  id : String
  vin : String
  createdAt : Int
  deriving DecidableEq, Repr

/-- Go `CreateVehicleHandler.Handle`. The struct validator is an
external library, passed in as `validate`; `genID` stands for the
time-based `GenerateVehicleID()`. The VIN pre-check looks up the raw
request VIN, while the stored vehicle carries the trimmed upper-cased
VIN; a repository failure of any kind is wrapped in the database-query
error. -/
def createVehicleHandle (validate : CreateVehicleRequest → Option String)
    (s : Store) (genID : String) (now : Int) (req : CreateVehicleRequest) :
    Store × Except AppError CreateVehicleResponse :=
  match validate req with
  | some msg => (s, Except.error (ErrInvalidInput.withDetails [("validation", msg)]))
  | none =>
    match repoGetVehicleByVIN s req.vin with
    | Except.ok _ =>
      (s, Except.error (ErrResourceExists.withDetails
        [("resource", "vehicle"), ("vin", req.vin)]))
    | Except.error _ =>
      let vehicle : Vehicle :=
        { blankVehicle with
          id := genID
          vin := goToUpper (goTrimSpace req.vin)
          make := goTrimSpace req.make
          model := goTrimSpace req.model
          year := req.year
          color := goTrimSpace req.color
          licensePlate := goToUpper (goTrimSpace req.licensePlate)
          ownerID := req.ownerID
          ownerName := goTrimSpace req.ownerName
          ownerEmail := goToLower (goTrimSpace req.ownerEmail)
          ownerPhone := goTrimSpace req.ownerPhone
          transmission := req.transmission
          fuelType := req.fuelType
          mileage := req.mileage
          status := VehicleStatus.active
          createdAt := now, updatedAt := now
          createdBy := req.createdBy, updatedBy := req.createdBy }
      match repoCreateVehicle s vehicle now with
      | (s', none) =>
        (s', Except.ok { id := vehicle.id, vin := vehicle.vin, createdAt := now })
      | (s', some e) =>
        (s', Except.error ((ErrDatabaseQuery.withCause e.errorString).withDetails
          [("operation", "create_vehicle")]))

/-- Whether a handler result is a success. -/
def isOkResp : Except AppError CreateVehicleResponse → Bool
  | Except.ok _ => true
  | Except.error _ => false

/-- The error category of a handler result, when it is an error. -/
def respErrType : Except AppError CreateVehicleResponse → Option ErrorType
  | Except.error e => some e.type
  | Except.ok _ => none

/-- A validator that accepts (the concrete requests below satisfy every
declarative field rule, so the external validation library passes). -/
def noValidation : CreateVehicleRequest → Option String := fun _ => none

/-- A well-formed create request with the given VIN. -/
def mkCreateReq (vin : String) : CreateVehicleRequest :=
  { vin := vin, make := "Toyota", model := "Camry", year := 2023, color := ""
    licensePlate := "", ownerID := "owner-123", ownerName := "John Doe"
    ownerEmail := "john@example.com", ownerPhone := "", transmission := ""
    fuelType := "gasoline", mileage := 0, createdBy := "admin-user" }

/-- First create: empty store, upper-case VIN. -/
def c5First : Store × Except AppError CreateVehicleResponse :=
  createVehicleHandle noValidation [] "VEH_1" 0 (mkCreateReq "1HGBH41JXMN109186")

/-- Second create against the resulting store: same VIN in lower case. -/
def c5Second : Store × Except AppError CreateVehicleResponse :=
  createVehicleHandle noValidation c5First.1 "VEH_2" 1
    (mkCreateReq "1hgbh41jxmn109186")

/-- C5: the first create succeeds; the second request's VIN equals the
first after trim/upper-case normalization, the duplicate is caught (the
store is unchanged, so there is no silent overwrite), but the surfaced
error is the internal database-query wrap of the repository's conflict,
not a conflict-category error: the raw-VIN pre-check misses the stored
normalized VIN and the handler rewraps the repository error. -/
theorem C5_duplicate_vin_surfaces_internal :
    isOkResp c5First.2 = true ∧
    goToUpper (goTrimSpace "1hgbh41jxmn109186") =
      goToUpper (goTrimSpace "1HGBH41JXMN109186") ∧
    respErrType c5Second.2 = some ErrorType.internal ∧
    respErrType c5Second.2 ≠ some ErrorType.conflict ∧
    c5Second.1 = c5First.1 := by
  decide

/-! ## GPS data handler (`backend/app/gps`)

Instants are `Int` nanoseconds since the Unix epoch; the server's local
zone is a fixed offset `off` in nanoseconds (Go `time.Location`). -/

/-- Go `time.Date(now.Year(), now.Month(), now.Day(), 0,0,0,0, loc)`:
the most recent local midnight. -/
def localMidnight (now off : Int) : Int :=
  now - (now + off).emod nsPerDay

/-- Go `time.Date(..., 23,59,59,999999999, loc)`: the last nanosecond
of the current local day. -/
def localEndOfDay (now off : Int) : Int :=
  localMidnight now off + (nsPerDay - 1)

/-- Go `time.Now().Truncate(24 * time.Hour)`: truncation is relative to
the zero time, which is midnight UTC, so this is the most recent UTC
midnight regardless of the server's zone. -/
def utcTruncDay (now : Int) : Int :=
  now - now.emod nsPerDay

/-- Decimal digit value of a character. -/
def digitVal (c : Char) : Option Nat :=
  if c.isDigit then some (c.toNat - 48) else none

/-- Gregorian leap-year rule. -/
def isLeapYear (y : Int) : Bool :=
  (y % 4 == 0 && y % 100 != 0) || y % 400 == 0

/-- Days in a month, as `time.Parse` validates the day field. -/
def daysInMonth (y : Int) (m : Nat) : Nat :=
  if m == 2 then (if isLeapYear y then 29 else 28)
  else if m == 4 || m == 6 || m == 9 || m == 11 then 30
  else 31

/-- Go `time.Parse("2006-01-02", s)`: exactly ten characters, four
digits, dash, two digits, dash, two digits, with month and day in
range; yields the year/month/day on success. -/
def parseYMD (s : String) : Option (Int × Nat × Nat) :=
  match s.data with
  | [c0, c1, c2, c3, c4, c5, c6, c7, c8, c9] =>
    if c4 == '-' && c7 == '-' then
      match digitVal c0, digitVal c1, digitVal c2, digitVal c3,
          digitVal c5, digitVal c6, digitVal c8, digitVal c9 with
      | some a, some b, some c, some d, some m1, some m2, some d1, some d2 =>
        let y : Int := Int.ofNat (a * 1000 + b * 100 + c * 10 + d)
        let m := m1 * 10 + m2
        let dd := d1 * 10 + d2
        if 1 ≤ m && m ≤ 12 && 1 ≤ dd && dd ≤ daysInMonth y m then
          some (y, m, dd)
        else none
      | _, _, _, _, _, _, _, _ => none
    else none
  | _ => none

/-- Days from the Unix epoch to the given civil date (standard
days-from-civil computation, exact for the Gregorian calendar). -/
def daysFromCivil (y : Int) (m d : Nat) : Int :=
  let y' : Int := if m ≤ 2 then y - 1 else y
  let era : Int := (if 0 ≤ y' then y' else y' - 399) / 400
  let yoe : Int := y' - era * 400
  let mp : Int := (Int.ofNat m + 9) % 12
  let doy : Int := (153 * mp + 2) / 5 + (Int.ofNat d - 1)
  let doe : Int := yoe * 365 + yoe / 4 - yoe / 100 + doy
  era * 146097 + doe - 719468

/-- The instant of a parsed date's midnight; `time.Parse` without a
zone directive yields UTC. -/
def dateInstantUTC (ymd : Int × Nat × Nat) : Int :=
  daysFromCivil ymd.1 ymd.2.1 ymd.2.2 * nsPerDay

/-- The handler's start-date computation: empty input defaults to the
local midnight of today; a present but unparseable value falls back to
`time.Now().Truncate(24h)`; a valid date parses to its UTC midnight. -/
def computeStartDate (raw : String) (now off : Int) : Int :=
  if raw == "" then localMidnight now off
  else
    match parseYMD raw with
    | some ymd => dateInstantUTC ymd
    | none => utcTruncDay now

/-- The handler's end-date computation: empty input defaults to the
last nanosecond of the local day; a present but unparseable value falls
back to `time.Now()`; a valid date is extended to the end of that (UTC)
day. -/
def computeEndDate (raw : String) (now off : Int) : Int :=
  if raw == "" then localEndOfDay now off
  else
    match parseYMD raw with
    | some ymd => dateInstantUTC ymd + (nsPerDay - 1)
    | none => now

/-- Go `GetGPSDataRequest` (query-string fields). -/
structure GetGPSDataRequest where
  deviceID : String
  startDate : String
  endDate : String
  deriving DecidableEq, Repr

/-- Nanoseconds in one second, for Go `time.Unix(sec, 0)`. -/
def nsPerSec : Int := 1000000000

/-- Go's `int64(x)` conversion of a `float64`: truncation toward zero
(`Int.tdiv` of the numerator by the positive denominator). -/
def goInt64 (x : Rat) : Int :=
  Int.tdiv x.num (x.den : Int)

/-- Go `domain.GPSData`: `float64` latitude/longitude and a Unix
timestamp stored as `float64` seconds, all modelled as `Rat`. -/
structure GPSData where
  id : String
  deviceID : String
  latitude : Rat
  longitude : Rat
  timestamp : Rat
  deriving DecidableEq, Repr

/-- Go `GPSData.GetTimestamp`: `time.Unix(int64(g.Timestamp), 0)` — the
truncated second count as an instant, in our nanosecond model. -/
def GPSData.getTimestamp (g : GPSData) : Int :=
  goInt64 g.timestamp * nsPerSec

/-- Go `domain.GPSDataResponse`: the same row with the timestamp as a
`time.Time` (an instant, `Int` nanoseconds like every other time in
this development). -/
structure GPSDataResponse where
  id : String
  deviceID : String
  latitude : Rat
  longitude : Rat
  timestamp : Int
  deriving DecidableEq, Repr

/-- Go `GPSData.ToResponse`. -/
def GPSData.toResponse (g : GPSData) : GPSDataResponse :=
  { id := g.id, deviceID := g.deviceID, latitude := g.latitude
    longitude := g.longitude, timestamp := g.getTimestamp }

/-- Go `GetGPSDataResponse`. -/
structure GetGPSDataResponse where
  data : List GPSDataResponse
  count : Nat
  deriving DecidableEq, Repr

/-- Go `GetGPSDataHandler.Handle`: computes the date bounds (never
failing on malformed input), queries the repository collaborator with
them, and wraps the rows; the only error path is the repository's. -/
def getGPSDataHandle (repo : Int → Int → Except String (List GPSData))
    (now off : Int) (req : GetGPSDataRequest) :
    Except String GetGPSDataResponse :=
  let startDate := computeStartDate req.startDate now off
  let endDate := computeEndDate req.endDate now off
  match repo startDate endDate with
  | Except.error e => Except.error e
  | Except.ok gpsData =>
    Except.ok { data := gpsData.map GPSData.toResponse
                count := (gpsData.map GPSData.toResponse).length }

/-- Whether a GPS handler outcome is a 200 response. -/
def gpsIsOk : Except String GetGPSDataResponse → Bool
  | Except.ok _ => true
  | Except.error _ => false

/-! ## Claim C8: GPS date defaults -/

/-- C8 counterexample: at noon UTC, a malformed `end_date` yields the
current instant, not today 23:59:59.999999999; and on a UTC+3 server a
malformed `start_date` yields the UTC midnight, not the local one. Both
contradict the claim that unparseable dates get the same defaults as
absent ones. -/
theorem C8_unparseable_defaults_differ :
    computeEndDate "not-a-date" 43200000000000 0 ≠
      localEndOfDay 43200000000000 0 ∧
    computeStartDate "not-a-date" 43200000000000 10800000000000 ≠
      localMidnight 43200000000000 10800000000000 := by
  decide

/-- C8 (amended): an absent `start_date` defaults to today 00:00:00 and
an absent `end_date` to today 23:59:59.999999999 in server local time;
a present but unparseable `start_date` instead falls back to the
current instant truncated to the UTC day, and a present but unparseable
`end_date` to the current instant itself; in every case the request
does not fail — whenever the repository succeeds the handler returns a
200 response. -/
theorem C8_gps_date_defaults (now off : Int) (rawS rawE : String)
    (req : GetGPSDataRequest) :
    computeStartDate "" now off = localMidnight now off ∧
    (rawS ≠ "" → parseYMD rawS = none →
      computeStartDate rawS now off = utcTruncDay now) ∧
    computeEndDate "" now off = localEndOfDay now off ∧
    (rawE ≠ "" → parseYMD rawE = none → computeEndDate rawE now off = now) ∧
    (∀ rows, gpsIsOk
      (getGPSDataHandle (fun _ _ => Except.ok rows) now off req) = true) := by
  refine ⟨?_, ?_, ?_, ?_, ?_⟩
  · simp [computeStartDate]
  · intro hne hp
    have hbeq : (rawS == "") = false := by simpa using hne
    simp [computeStartDate, hbeq, hp]
  · simp [computeEndDate]
  · intro hne hp
    have hbeq : (rawE == "") = false := by simpa using hne
    simp [computeEndDate, hbeq, hp]
  · intro rows
    simp [getGPSDataHandle, gpsIsOk]

/-- C8 witness: the amended theorem at concrete instants — noon UTC on
a UTC+3 server with malformed dates, and a successful empty query. -/
theorem C8_gps_date_defaults_witness :
    computeStartDate "" 43200000000000 10800000000000 =
      localMidnight 43200000000000 10800000000000 ∧
    computeStartDate "not-a-date" 43200000000000 10800000000000 =
      utcTruncDay 43200000000000 ∧
    computeEndDate "also-bad" 43200000000000 10800000000000 = 43200000000000 ∧
    gpsIsOk (getGPSDataHandle (fun _ _ => Except.ok [])
      43200000000000 10800000000000
      { deviceID := "dev1", startDate := "not-a-date", endDate := "also-bad" }) =
      true :=
  ⟨(C8_gps_date_defaults 43200000000000 10800000000000 "not-a-date" "also-bad"
      { deviceID := "dev1", startDate := "not-a-date", endDate := "also-bad" }).1,
   (C8_gps_date_defaults 43200000000000 10800000000000 "not-a-date" "also-bad"
      { deviceID := "dev1", startDate := "not-a-date", endDate := "also-bad" }).2.1
     (by decide) (by decide),
   (C8_gps_date_defaults 43200000000000 10800000000000 "not-a-date" "also-bad"
      { deviceID := "dev1", startDate := "not-a-date", endDate := "also-bad" }).2.2.2.1
     (by decide) (by decide),
   (C8_gps_date_defaults 43200000000000 10800000000000 "not-a-date" "also-bad"
      { deviceID := "dev1", startDate := "not-a-date", endDate := "also-bad" }).2.2.2.2
     []⟩

/-! ## Generic handler dispatch (`backend/main.go`) -/

/-- A binding-stage failure: fiber's unprocessable-entity marker (the
only body-parser error `handle` tolerates) or an ordinary parse error
with its message. -/
inductive BindErr where
  | unprocessable
  | parseFail (msg : String)
  deriving DecidableEq, Repr

/-- The message rendered into the 400 body (`err.Error()`). -/
def BindErr.message : BindErr → String
  | BindErr.unprocessable => "Unprocessable Entity"
  | BindErr.parseFail m => m

/-- The transport-level outcome of one dispatched request. -/
inductive HttpResult (Res E : Type) where
  | badRequest (msg : String)
  | handlerErr (e : E)
  | okJSON (res : Res)
  deriving DecidableEq, Repr

/-- Go `handle[R, Res]`: starts from the zero request, applies the body
parser (tolerating only the unprocessable-entity error, which leaves
the record untouched), then the path, query and header parsers in that
order — each receiving the record produced so far — aborting with a 400
on the first failure; only if all four sources succeed is the business
handler invoked, its error rendered, its response serialized. -/
def handleAdapter {R Res E : Type}
    (bodyP pathP queryP headerP : R → Except BindErr R)
    (handler : R → Except E Res) (zero : R) : HttpResult Res E :=
  let afterBody := fun (r : R) =>
    match pathP r with
    | Except.error e => HttpResult.badRequest e.message
    | Except.ok r2 =>
      match queryP r2 with
      | Except.error e => HttpResult.badRequest e.message
      | Except.ok r3 =>
        match headerP r3 with
        | Except.error e => HttpResult.badRequest e.message
        | Except.ok r4 =>
          match handler r4 with
          | Except.error e => HttpResult.handlerErr e
          | Except.ok res => HttpResult.okJSON res
  match bodyP zero with
  | Except.error BindErr.unprocessable => afterBody zero
  | Except.error (BindErr.parseFail m) => HttpResult.badRequest m
  | Except.ok r1 => afterBody r1

/-! ## Claim C9: dispatch order and fail-fast binding -/

/-- C9: the four sources populate the record in the fixed order body →
path → query → headers, each later parser receiving (and so free to
overwrite) the record built by the earlier ones; the first source that
fails to parse short-circuits to a 400 response computed independently
of the business handler (so the handler is never invoked); the one
tolerated exception, built into the adapter, is the body parser's
unprocessable-entity marker for absent bodies. -/
theorem C9_dispatch_order_and_fail_fast {R Res E : Type}
    (bodyP pathP queryP headerP : R → Except BindErr R)
    (h1 h2 : R → Except E Res) (zero : R) :
    (∀ r1 r2 r3 r4, bodyP zero = Except.ok r1 → pathP r1 = Except.ok r2 →
      queryP r2 = Except.ok r3 → headerP r3 = Except.ok r4 →
      handleAdapter bodyP pathP queryP headerP h1 zero =
        (match h1 r4 with
         | Except.ok res => HttpResult.okJSON res
         | Except.error e => HttpResult.handlerErr e)) ∧
    (∀ m, bodyP zero = Except.error (BindErr.parseFail m) →
      handleAdapter bodyP pathP queryP headerP h1 zero =
        HttpResult.badRequest m ∧
      handleAdapter bodyP pathP queryP headerP h1 zero =
        handleAdapter bodyP pathP queryP headerP h2 zero) ∧
    (∀ r1 e, bodyP zero = Except.ok r1 → pathP r1 = Except.error e →
      handleAdapter bodyP pathP queryP headerP h1 zero =
        HttpResult.badRequest e.message ∧
      handleAdapter bodyP pathP queryP headerP h1 zero =
        handleAdapter bodyP pathP queryP headerP h2 zero) ∧
    (∀ r1 r2 e, bodyP zero = Except.ok r1 → pathP r1 = Except.ok r2 →
      queryP r2 = Except.error e →
      handleAdapter bodyP pathP queryP headerP h1 zero =
        HttpResult.badRequest e.message ∧
      handleAdapter bodyP pathP queryP headerP h1 zero =
        handleAdapter bodyP pathP queryP headerP h2 zero) ∧
    (∀ r1 r2 r3 e, bodyP zero = Except.ok r1 → pathP r1 = Except.ok r2 →
      queryP r2 = Except.ok r3 → headerP r3 = Except.error e →
      handleAdapter bodyP pathP queryP headerP h1 zero =
        HttpResult.badRequest e.message ∧
      handleAdapter bodyP pathP queryP headerP h1 zero =
        handleAdapter bodyP pathP queryP headerP h2 zero) := by
  refine ⟨?_, ?_, ?_, ?_, ?_⟩
  · intro r1 r2 r3 r4 hb hp hq hh
    simp only [handleAdapter, hb, hp, hq, hh]
    cases h1 r4 <;> rfl
  · intro m hb
    constructor <;> simp [handleAdapter, hb]
  · intro r1 e hb hp
    constructor <;> simp [handleAdapter, hb, hp]
  · intro r1 r2 e hb hp hq
    constructor <;> simp [handleAdapter, hb, hp, hq]
  · intro r1 r2 r3 e hb hp hq hh
    constructor <;> simp [handleAdapter, hb, hp, hq, hh]

/-- C9 witness: a record that logs which sources touched it, in order,
plus a failing path parser short-circuiting to 400. -/
theorem C9_dispatch_order_and_fail_fast_witness :
    @handleAdapter (List String) (List String) Unit
      (fun r => Except.ok (r ++ ["body"])) (fun r => Except.ok (r ++ ["path"]))
      (fun r => Except.ok (r ++ ["query"])) (fun r => Except.ok (r ++ ["header"]))
      (fun r => Except.ok r) [] =
      HttpResult.okJSON ["body", "path", "query", "header"] ∧
    @handleAdapter (List String) (List String) Unit
      (fun r => Except.ok (r ++ ["body"]))
      (fun _ => Except.error (BindErr.parseFail "bad path"))
      (fun r => Except.ok (r ++ ["query"])) (fun r => Except.ok (r ++ ["header"]))
      (fun r => Except.ok r) [] =
      HttpResult.badRequest "bad path" :=
  ⟨(C9_dispatch_order_and_fail_fast
      (fun r => Except.ok (r ++ ["body"])) (fun r => Except.ok (r ++ ["path"]))
      (fun r => Except.ok (r ++ ["query"])) (fun r => Except.ok (r ++ ["header"]))
      (fun r => Except.ok r) (fun r => Except.ok r) []).1
      ["body"] ["body", "path"] ["body", "path", "query"]
      ["body", "path", "query", "header"] rfl rfl rfl rfl,
   ((C9_dispatch_order_and_fail_fast
      (fun r => Except.ok (r ++ ["body"]))
      (fun _ => Except.error (BindErr.parseFail "bad path"))
      (fun r => Except.ok (r ++ ["query"])) (fun r => Except.ok (r ++ ["header"]))
      (fun r => Except.ok r) (fun r => Except.ok r) []).2.2.1
      ["body"] (BindErr.parseFail "bad path") rfl rfl).1⟩

end Trackly
